import Mathlib

/-!
Verification development for the TestCuOpt orchestration repository.

The repository has two source files:
* `cuopt_mps_solver_server.py` — a FastAPI service exposing `POST /solve_mps`
  (`solve_from_request`) and `GET /health`;
* `Solve.py` — a CLI driver (`main`) dispatching to `solve_with_cuopt_server`
  (remote HTTP solve), `execute_scip_command` and `execute_highs_command`
  (local subprocess runners), plus `load_config`.

This file shallowly embeds those functions.  External effects (filesystem,
HTTP, subprocesses, the cuOpt solver library) are modelled by explicit
"world" records supplying every outcome the code can observe, and each
embedded function returns its result together with a trace of the externally
visible events it performs (prints, process spawns, HTTP posts, parser and
solver invocations).  Python semantics that the code relies on
(`os.path.normpath`, `os.path.join`, `pathlib.Path.name`, `str.startswith`,
`configparser` and `requests` exception classes, `dict.pop`, `range`) are
embedded faithfully below, translated from the CPython / library semantics.
-/

/-! ## Python string and path primitives -/

/-- Python `s.startswith(pre)` (full-prefix check on the character sequence). -/
def pyStartsWith (s pre : String) : Bool :=
  pre.data.isPrefixOf s.data

/-- Python `s.endswith(suf)`. -/
def pyEndsWith (s suf : String) : Bool :=
  suf.data.isSuffixOf s.data

/-- Python `s[n:]` for ASCII strings (drop the first `n` characters). -/
def strDrop (s : String) (n : Nat) : String :=
  ⟨s.data.drop n⟩

/-- One step of splitting a character list on `'/'` (Python `str.split('/')`). -/
def splitSlashCons (c : Char) (r : List (List Char)) : List (List Char) :=
  if c = '/' then [] :: r
  else
    match r with
    | [] => [[c]]
    | p :: ps => (c :: p) :: ps

/-- Python `path.split('/')` on the character list of a path. -/
def splitSlash : List Char → List (List Char)
  | [] => [[]]
  | c :: cs => splitSlashCons c (splitSlash cs)

/-- Component normalisation loop of CPython `posixpath.normpath`: empty and
`"."` components are dropped, `".."` pops the previous component except at the
start of a relative path or after an unresolved `".."`. -/
def normparts (isAbs : Bool) (comps : List (List Char)) : List (List Char) :=
  comps.foldl
    (fun newComps comp =>
      if comp = [] ∨ comp = ['.'] then newComps
      else if comp ≠ ['.', '.'] ∨ (isAbs = false ∧ newComps = [])
              ∨ newComps.getLast? = some ['.', '.'] then
        newComps ++ [comp]
      else if newComps ≠ [] then newComps.dropLast
      else newComps)
    []

/-- CPython `posixpath.normpath`: collapse repeated slashes, drop `"."`
segments, resolve `".."` segments, preserving a leading `"//"` exactly. -/
def normpath (p : String) : String :=
  match p.data with
  | [] => "."
  | _ :: _ =>
    let cs := p.data
    let slashes : Nat :=
      match cs with
      | '/' :: '/' :: '/' :: _ => 1
      | '/' :: '/' :: _ => 2
      | '/' :: _ => 1
      | _ => 0
    let nc := normparts (0 < slashes) (splitSlash cs)
    let res : List Char := List.replicate slashes '/' ++ List.intercalate ['/'] nc
    if res = [] then "." else ⟨res⟩

/-- CPython `posixpath.join a b` (two-argument form, as used by the server):
an absolute second argument replaces the first; otherwise the parts are
joined with a single `'/'` unless the first already ends in one. -/
def posixJoin (a b : String) : String :=
  if pyStartsWith b "/" then b
  else if a = "" ∨ pyEndsWith a "/" then a ++ b
  else a ++ "/" ++ b

/-- Components of `pathlib.PurePosixPath` (empty and `"."` segments dropped;
the root is not a component). -/
def pathParts (s : String) : List (List Char) :=
  (splitSlash s.data).filter (fun p => decide (p ≠ [] ∧ p ≠ ['.']))

/-- `pathlib.Path(s).name`: the final path component, `""` when there is none. -/
def pathlibName (s : String) : String :=
  match (pathParts s).getLast? with
  | some p => ⟨p⟩
  | none => ""

/-! ## Python values and the solver result object

`PyVal` carries exactly the value shapes `solve_from_request` distinguishes:
the JSON-safe primitives tested by its `isinstance` check (`str`, `int`,
`float`, `bool`, `list`, `dict`, `None`), numpy arrays (handled via
`.tolist()`), and any other object (`vobj` carries the string `str(value)`
would produce for it). Floats are carried as rationals; the code never
computes with them, it only moves them. -/

inductive PyVal where
  | vstr (s : String)
  | vint (n : Int)
  | vfloat (q : Rat)
  | vbool (b : Bool)
  | vlist (xs : List PyVal)
  | vdict (xs : List (String × PyVal))
  | vnone
  | vndarray (xs : List Rat)
  | vobj (reprStr : String)

/-- The `isinstance(value, (str, int, float, bool, list, dict, type(None)))`
test in `solve_from_request`. -/
def isJsonSafe : PyVal → Bool
  | .vstr _ | .vint _ | .vfloat _ | .vbool _ | .vlist _ | .vdict _ | .vnone => true
  | .vndarray _ | .vobj _ => false

/-- Whether a value is a Python string. -/
def PyVal.isStr : PyVal → Bool
  | .vstr _ => true
  | _ => false

/-- Value classification in the reflection loop of `solve_from_request`:
JSON-safe values are kept verbatim, numpy arrays become lists via
`.tolist()`, and any other object is replaced by `str(value)` (the repr
string the `vobj` constructor carries).  The three arms are exactly the
code's `isinstance` / `np.ndarray` / fallback branches: the constructors
failing `isJsonSafe` are precisely `vndarray` and `vobj`. -/
def coerceValue : PyVal → PyVal
  | .vndarray xs => .vlist (xs.map PyVal.vfloat)
  | .vobj r => .vstr r
  | v => v

/-- Association-list lookup (leftmost binding), used for Python dicts. -/
def alookup {β : Type} (k : String) : List (String × β) → Option β
  | [] => none
  | p :: ps => if p.1 = k then some p.2 else alookup k ps

/-- Python `d[k] = v`: overwrite in place when the key is present, else
append a new binding (insertion order is preserved, as for `dict`). -/
def pyDictSet (d : List (String × PyVal)) (k : String) (v : PyVal) :
    List (String × PyVal) :=
  match alookup k d with
  | some _ => d.map (fun p => if p.1 = k then (k, v) else p)
  | none => d ++ [(k, v)]

/-- Python `d.pop(k, default)`: return the bound value and remove the key,
or the default leaving the dict unchanged. -/
def pyDictPop (d : List (String × PyVal)) (k : String) (default : PyVal) :
    PyVal × List (String × PyVal) :=
  match alookup k d with
  | some v => (v, d.filter (fun p => decide (p.1 ≠ k)))
  | none => (default, d)

/-- Behaviour of one attribute of the solver result object, as the
reflection loop in `solve_from_request` can observe it: a non-callable
attribute, a callable whose call raises `AttributeError` (the solution type
does not support it), or a callable returning a value. -/
inductive AttrBehavior where
  | nonCallable
  | raisesAttributeError
  | returns (v : PyVal)

/-- A solver result object: its `dir()` listing, each attribute name paired
with the behaviour the loop observes for it (`dir` yields each name once). -/
abbrev ResultObj := List (String × AttrBehavior)

/-- Loop body of the dictionary-building `for attr_name in dir(result_obj)`
loop in `solve_from_request`: names not starting with `get_`, non-callable
attributes and calls raising `AttributeError` are skipped; otherwise the
`get_` prefix is stripped and the classified value is stored. -/
def resultDictStep (d : List (String × PyVal)) (p : String × AttrBehavior) :
    List (String × PyVal) :=
  if pyStartsWith p.1 "get_" then
    match p.2 with
    | .returns v => pyDictSet d (strDrop p.1 4) (coerceValue v)
    | .nonCallable => d
    | .raisesAttributeError => d
  else d

/-- The `full_result_dict` built by `solve_from_request` from a result object. -/
def buildResultDict (r : ResultObj) : List (String × PyVal) :=
  r.foldl resultDictStep []

/-- The structured response `solve_from_request` returns (pydantic
`SolverResponse` model: `status`, `objective_value`, open `details` dict). -/
structure SolverResponse where
  status : PyVal
  objective_value : PyVal
  details : List (String × PyVal)

/-- Result reshaping of `solve_from_request` (lines 95–134): build the full
result dict by reflection, pop `status` (default `"unknown"`) and
`objective_value` (default `None`) to the top level, keep the rest as
`details`. -/
def reshape (r : ResultObj) : SolverResponse :=
  let d := buildResultDict r
  let st := pyDictPop d "status" (.vstr "unknown")
  let ob := pyDictPop st.2 "objective_value" .vnone
  ⟨st.1, ob.1, ob.2⟩

/-! Declarative (specification-side) description of the reshaping, used to
state the amended form of claim C4 as a refinement. -/

/-- Specification-side view of one result-object field: a successful
`get_`-getter contributes its stripped key and classified value. -/
def resultEntry (p : String × AttrBehavior) : Option (String × PyVal) :=
  if pyStartsWith p.1 "get_" then
    match p.2 with
    | .returns v => some (strDrop p.1 4, coerceValue v)
    | _ => none
  else none

/-- All key/value pairs the result object exposes, in `dir()` order. -/
def resultEntries (r : ResultObj) : List (String × PyVal) :=
  r.filterMap resultEntry

/-- The keys the result object exposes. -/
def resultKeys (r : ResultObj) : List String :=
  (resultEntries r).map Prod.fst

/-- Modelled from the spec: top-level `status` — the exposed `status` value
when present, else `"unknown"`. -/
def reshapeSpecStatus (r : ResultObj) : PyVal :=
  (alookup "status" (resultEntries r)).getD (.vstr "unknown")

/-- Modelled from the spec: top-level `objective_value` — the exposed value
when present, else `None`. -/
def reshapeSpecObjective (r : ResultObj) : PyVal :=
  (alookup "objective_value" (resultEntries r)).getD .vnone

/-- Modelled from the spec: `details` — every exposed field except the two
promoted ones, in order, values classified by `coerceValue`. -/
def reshapeSpecDetails (r : ResultObj) : List (String × PyVal) :=
  (resultEntries r).filter
    (fun p => decide (p.1 ≠ "status") && decide (p.1 ≠ "objective_value"))

/-! ## The `/solve_mps` endpoint (`cuopt_mps_solver_server.py`, `solve_from_request`) -/

/-- The request body model `MPSRequest` (pydantic): `file_name` required,
`time_limit` defaulting to `1.0`, `batch_size` defaulting to `1`.  No field
declares any validation constraint, so any int (including `0` and negative
values) is accepted for `batch_size`. -/
structure MPSRequest where
  file_name : String
  time_limit : Rat := 1
  batch_size : Int := 1

/-- Environment the endpoint observes: which server-side paths exist
(`os.path.exists`), and the result object the external batch solve yields.
`cuopt.linear_programming.BatchSolve` is outside this repository; it is
modelled at its boundary as returning one solution object per data model
passed in (the spec: "invoking the remote solver library on multiple copies
of a parsed model in one call"), each observed through `resultObj`. -/
structure ServerWorld where
  fileExists : String → Bool
  resultObj : ResultObj

/-- Externally visible solver-side events of the endpoint: each
`parser.ParseMps(file_path)` call and the final `BatchSolve` invocation
(carrying the number of models and the time limit installed in the solver
settings). -/
inductive ServerEvent where
  | parseMps (path : String)
  | batchSolve (nModels : Nat) (timeLimit : Rat)

/-- Outcome of one request: an `HTTPException` with status code and detail,
a structured `SolverResponse`, or an uncaught Python exception (which FastAPI
surfaces as a 500, not as a deliberate response). -/
inductive ServerResult where
  | httpError (code : Nat) (detail : String)
  | ok (resp : SolverResponse)
  | pyError (excMsg : String)

/-- The fixed server-side base directory of `solve_from_request`. -/
def base_directory : String := "/app"

/-- Embedding of `solve_from_request` (`cuopt_mps_solver_server.py`):
join the requested name onto `"/app"`, normalise, reject with 400 when the
result does not *string-prefix-match* `"/app"` (`file_path.startswith`),
reject with 404 when the path does not exist, then parse the file
`batch_size` times (`for i in range(request.batch_size)`), batch-solve, take
`batch_solution[0]` (an `IndexError` when the batch is empty) and reshape the
result.  Log prints and the individual solver-settings assignments carry no
information beyond the `batchSolve` event and are not recorded. -/
def solve_from_request (w : ServerWorld) (req : MPSRequest) :
    ServerResult × List ServerEvent :=
  let file_path := normpath (posixJoin base_directory req.file_name)
  if !(pyStartsWith file_path base_directory) then
    (.httpError 400 "Invalid file path specified.", [])
  else if !(w.fileExists file_path) then
    (.httpError 404 ("File not found inside the container at: " ++ file_path), [])
  else
    let n := req.batch_size.toNat
    let parseEvents := (List.range n).map (fun _ => ServerEvent.parseMps file_path)
    let batch_solution := (List.range n).map (fun _ => w.resultObj)
    let events := parseEvents ++ [ServerEvent.batchSolve n req.time_limit]
    match batch_solution with
    | [] => (.pyError "IndexError: list index out of range", events)
    | r :: _ => (.ok (reshape r), events)

/-- A resolved path escapes the base directory when it is neither the base
directory itself nor strictly below it. -/
def escapesBase (p : String) : Bool :=
  !(p == base_directory || pyStartsWith p (base_directory ++ "/"))

/-! ## The remote solver client (`Solve.py`, `solve_with_cuopt_server`) -/

/-- Outcome of the `requests.post` call as the client observes it: the post
itself raises (network failure / timeout), or a response arrives carrying a
status code, an optional decoded JSON body (`none` when the body is not valid
JSON, in which case `response.json()` raises) and the raw body text. -/
inductive ReqOutcome where
  | raiseConnection (msg : String)
  | response (status : Nat) (body : Option PyVal) (text : String)

/-- Environment of `solve_with_cuopt_server`: the local filesystem (present
in the world because the source *contains* a commented-out existence check;
nothing in the live code reads it) and the HTTP outcome. -/
structure ClientWorld where
  fileExists : String → Bool
  outcome : ReqOutcome

/-- Externally visible events of the client: printed lines, the HTTP post
(with the JSON body fields and the request timeout), and
`print(json.dumps(response.json(), indent=2))` recorded as a structured
JSON-print of the decoded value. -/
inductive ClientEvent where
  | msg (s : String)
  | post (url : String) (fileName : String) (timeLimit : Rat) (batchSize : Int)
      (timeoutSecs : Rat)
  | jsonOut (v : PyVal)

/-- Result of the client call: normal return (the function returns `None` in
every handled path) or an exception escaping the function. -/
inductive ClientResult where
  | normal (trace : List ClientEvent)
  | raised (excName : String) (trace : List ClientEvent)

/-- Trace of a client result. -/
def ClientResult.trace : ClientResult → List ClientEvent
  | .normal t => t
  | .raised _ t => t

/-- Lines printed by a client run. -/
def ClientResult.printedLines (r : ClientResult) : List String :=
  r.trace.filterMap (fun ev => match ev with | .msg s => some s | _ => none)

/-- Exception classes that can reach the `try/except` of
`solve_with_cuopt_server`: connection-level errors and timeouts from
`requests.post`, `requests.exceptions.HTTPError` from `raise_for_status`,
and `requests.exceptions.JSONDecodeError` from `response.json()`. -/
inductive ReqExc where
  | connectionError (msg : String)
  | httpError (status : Nat)
  | jsonDecodeError

/-- Class test for `except requests.exceptions.RequestException`.  In the
`requests` exception hierarchy (any release since 2.27, January 2022),
`ConnectionError`, `Timeout` and `HTTPError` derive from `RequestException`,
and `requests.exceptions.JSONDecodeError` — the exception `response.json()`
raises — derives from `InvalidJSONError`, itself a `RequestException`.
Hence every exception reaching this handler matches. -/
def ReqExc.matchesRequestException : ReqExc → Bool := fun _ => true

/-- Class test for `except json.JSONDecodeError`:
`requests.exceptions.JSONDecodeError` also derives from the standard
library's `json.JSONDecodeError` (its second base class). -/
def ReqExc.matchesJsonDecodeError : ReqExc → Bool
  | .jsonDecodeError => true
  | _ => false

/-- Python `str(e)` for the modelled exceptions (the `HTTPError` and
`JSONDecodeError` texts follow the fixed formats `requests` and `json`
produce). -/
def ReqExc.str : ReqExc → String
  | .connectionError m => m
  | .httpError s => toString s ++ " Error for url"
  | .jsonDecodeError => "Expecting value: line 1 column 1 (char 0)"

/-- The `except` clauses of `solve_with_cuopt_server`, tried in source
order: `requests.exceptions.RequestException` first (printing the
communication-error line), then `json.JSONDecodeError` (printing
`"Response was not valid JSON:"` and the raw response text). -/
def cuoptExceptHandler (trace : List ClientEvent) (respText : String)
    (e : ReqExc) : ClientResult :=
  if e.matchesRequestException then
    .normal (trace ++
      [.msg ("An error occurred while communicating with the cuOpt server: " ++ e.str)])
  else if e.matchesJsonDecodeError then
    .normal (trace ++ [.msg "Response was not valid JSON:", .msg respText])
  else .raised "uncaught" trace

/-- Embedding of `solve_with_cuopt_server` (`Solve.py`): the local
input-existence check is commented out in the source, so the function posts
unconditionally: JSON body `file_name = str(Path(mps_file_path).name)`,
`time_limit`, `batch_size`, with request timeout `time_limit + 30`; then
`raise_for_status()` (raising `HTTPError` for status codes in `[400, 600)`),
then the status-code and `"Response JSON:"` prints, then
`json.dumps(response.json(), indent=2)`.  All raised exceptions go through
`cuoptExceptHandler`. -/
def solve_with_cuopt_server (w : ClientWorld) (mps_file_path : String)
    (server_url : String) (time_limit : Rat := 60) (batch_size : Int := 1) :
    ClientResult :=
  let t0 : List ClientEvent :=
    [.msg ("-> Sending \x27" ++ mps_file_path ++ "\x27 to cuOpt server at "
        ++ server_url ++ "..."),
     .post server_url (pathlibName mps_file_path) time_limit batch_size
        (time_limit + 30)]
  match w.outcome with
  | .raiseConnection m => cuoptExceptHandler t0 "" (.connectionError m)
  | .response status body text =>
    if 400 ≤ status ∧ status < 600 then
      cuoptExceptHandler t0 text (.httpError status)
    else
      let t1 := t0 ++ [.msg ("Status Code: " ++ toString status), .msg "Response JSON:"]
      match body with
      | some v => .normal (t1 ++ [.jsonOut v])
      | none => cuoptExceptHandler t1 text .jsonDecodeError

/-! ## The local subprocess runners (`Solve.py`, `execute_scip_command` and
`execute_highs_command`) -/

/-- Environment a runner observes: filesystem existence at precondition time
(`Path.exists` / `os.path.exists`), the child process's combined output, its
exit code, and output-file existence after the process has finished. -/
structure RunnerWorld where
  fileExists : String → Bool
  stdout : String
  returncode : Int
  outputExistsAfter : String → Bool

/-- Externally visible runner events: printed lines and process spawns
(`subprocess.Popen` argv plus the data written to the child's stdin by
`communicate`, `none` when nothing is written). -/
inductive RunEvent where
  | msg (s : String)
  | spawn (argv : List String) (stdinData : Option String)

/-- Result of a runner call: normal return or a raised exception (message)
with the trace accumulated up to the raise. -/
inductive RunResult where
  | normal (trace : List RunEvent)
  | raised (excMsg : String) (trace : List RunEvent)

/-- Trace of a runner result. -/
def RunResult.trace : RunResult → List RunEvent
  | .normal t => t
  | .raised _ t => t

/-- Whether a runner result spawned any child process. -/
def RunResult.spawned (r : RunResult) : Bool :=
  r.trace.any (fun ev => match ev with | .spawn _ _ => true | _ => false)

/-- The `presolve` command script of `execute_scip_command` (the f-string
body, including its indentation). -/
def scipPresolveScript (input output : String) : String :=
  "\n            read " ++ input ++
  "\n            set limits nodes 0" ++
  "\n            set presolving emphasis aggressive" ++
  "\n            set presolving aggregation FALSE" ++
  "\n            set presolving maxrounds -1" ++
  "\n            set presolving maxrestarts -1" ++
  "\n            presolve" ++
  "\n            write transproblem " ++ output ++
  "\n            quit\n            "

/-- The `solve` command script of `execute_scip_command`. -/
def scipSolveScript (input output : String) : String :=
  "\n            read " ++ input ++
  "\n            optimize" ++
  "\n            display solution" ++
  "\n            write solution " ++ output ++
  "\n            quit\n            "

/-- The `command_map` dictionary of `execute_scip_command`. -/
def scipCommandMap (input output : String) : List (String × String) :=
  [("presolve", scipPresolveScript input output),
   ("solve", scipSolveScript input output)]

/-- Embedding of `execute_scip_command` (`Solve.py`): check the executable
path, then the input path (printing an error and returning when either is
missing); print the start line; look the requested operation up in
`command_map`, raising `ValueError` for any other `solve_type`; spawn the
SCIP executable, feed it the script, print its combined output and exit
code, and report the three-way outcome (success / ran-but-no-output /
failure) as printed status lines. -/
def execute_scip_command (w : RunnerWorld) (scip_exe_path input_model_path
    output_path solve_type : String) : RunResult :=
  if !(w.fileExists scip_exe_path) then
    .normal [.msg ("Error: SCIP executable not found at \x27" ++ scip_exe_path ++ "\x27")]
  else if !(w.fileExists input_model_path) then
    .normal [.msg ("Error: Input file not found at \x27" ++ input_model_path ++ "\x27")]
  else
    let t0 : List RunEvent :=
      [.msg ("-> Starting SCIP process for \x27" ++ input_model_path ++ "\x27...")]
    match alookup solve_type (scipCommandMap input_model_path output_path) with
    | none => .raised "solve_type must be either \x27presolve\x27 or \x27solve\x27" t0
    | some scip_commands =>
      let t1 := t0 ++
        [.spawn [scip_exe_path] (some scip_commands),
         .msg w.stdout,
         .msg ("-> SCIP process finished with return code: " ++ toString w.returncode)]
      if w.returncode = 0 ∧ w.outputExistsAfter output_path = true then
        .normal (t1 ++ [.msg ("Success! Output saved to: \x27" ++ output_path ++ "\x27")])
      else if w.returncode = 0 then
        .normal (t1 ++ [.msg "SCIP ran successfully, but the output file was not created."])
      else
        .normal (t1 ++ [.msg "An error occurred during the SCIP process."])

/-- Embedding of `execute_highs_command` (`Solve.py`): the same precondition
checks, then a spawn with CLI flags (no stdin script) and the same three-way
outcome reporting. -/
def execute_highs_command (w : RunnerWorld) (highs_exe_path input_model_path
    output_path : String) : RunResult :=
  if !(w.fileExists highs_exe_path) then
    .normal [.msg ("Error: HiGHS executable not found at \x27" ++ highs_exe_path ++ "\x27")]
  else if !(w.fileExists input_model_path) then
    .normal [.msg ("Error: Input file not found at \x27" ++ input_model_path ++ "\x27")]
  else
    let t1 : List RunEvent :=
      [.msg ("-> Starting HiGHS process for \x27" ++ input_model_path ++ "\x27..."),
       .spawn [highs_exe_path, input_model_path, "--solution_file=" ++ output_path] none,
       .msg w.stdout,
       .msg ("-> HiGHS process finished with return code: " ++ toString w.returncode)]
    if w.returncode = 0 ∧ w.outputExistsAfter output_path = true then
      .normal (t1 ++ [.msg ("Success! Output saved to: \x27" ++ output_path ++ "\x27")])
    else if w.returncode = 0 then
      .normal (t1 ++ [.msg "HiGHS ran successfully, but the output file was not created."])
    else
      .normal (t1 ++ [.msg "An error occurred during the HiGHS process."])

/-- Modelled from the spec: the three-way post-process classification
("exit code 0 and output file present ⇒ success; exit code 0 and output
file absent ⇒ ran but produced no output; nonzero exit code ⇒ failure"),
instantiated with each tool's message texts. -/
def runnerOutcomeMsg (toolName : String) (rc : Int) (outExists : Bool)
    (output : String) : String :=
  if rc = 0 ∧ outExists = true then
    "Success! Output saved to: \x27" ++ output ++ "\x27"
  else if rc = 0 then
    toolName ++ " ran successfully, but the output file was not created."
  else
    "An error occurred during the " ++ toolName ++ " process."

/-! ## Configuration loading and the CLI dispatcher (`Solve.py`,
`load_config` and `main`) -/

/-- Parsed configuration data: sections mapping keys to values. -/
abbrev ConfigData := List (String × List (String × String))

/-- State of the configuration file on disk: absent, present but
syntactically invalid (CPython `configparser` raises
`MissingSectionHeaderError` / `ParsingError` while reading such a file), or
well-formed with the given sections. -/
inductive ConfigState where
  | missing
  | malformed
  | parsed (data : ConfigData)

/-- Exceptions arising in the configuration phase of `main`.
`fileNotFoundError` is raised by `load_config`; `parsingError` by
`config.read` on malformed content (`configparser.ParsingError`, a direct
subclass of `configparser.Error`); the last two by `config.get`. -/
inductive ConfigError where
  | fileNotFoundError (msg : String)
  | parsingError
  | noSectionError (section_ : String)
  | noOptionError (option_ section_ : String)

/-- Which configuration exceptions the `except (FileNotFoundError,
configparser.NoSectionError, configparser.NoOptionError)` clause of `main`
catches.  `configparser.ParsingError` is none of the three (it is a sibling
of the two `configparser` classes under `configparser.Error`), so it is not
caught. -/
def ConfigError.isCaughtByMain : ConfigError → Bool
  | .parsingError => false
  | _ => true

/-- Python `str(e)` for the configuration exceptions (`configparser` formats
`NoSectionError` as `No section: '<s>'` and `NoOptionError` as
`No option '<o>' in section: '<s>'`). -/
def ConfigError.message : ConfigError → String
  | .fileNotFoundError m => m
  | .parsingError => "Source contains parsing errors"
  | .noSectionError s => "No section: \x27" ++ s ++ "\x27"
  | .noOptionError o s => "No option \x27" ++ o ++ "\x27 in section: \x27" ++ s ++ "\x27"

/-- Embedding of `load_config` (`Solve.py`): raise `FileNotFoundError` with
the descriptive message when the path does not exist, otherwise parse the
file (raising `configparser.ParsingError` on malformed content) and return
the section/key/value structure unvalidated. -/
def load_config (config_path : String) (st : ConfigState) :
    Except ConfigError ConfigData :=
  match st with
  | .missing => .error (.fileNotFoundError
      ("Configuration file not found at \x27" ++ config_path ++
       "\x27. Please create it based on the repository\x27s example."))
  | .malformed => .error .parsingError
  | .parsed d => .ok d

/-- `config.get(section, key)` of `configparser`: `NoSectionError` when the
section is absent, `NoOptionError` when the key is absent from the section.
(The repository's configuration uses no `DEFAULT` section, whose fallback
lookup is therefore not modelled.) -/
def configGet (d : ConfigData) (sec key : String) : Except ConfigError String :=
  match alookup sec d with
  | none => .error (.noSectionError sec)
  | some kvs =>
    match alookup key kvs with
    | none => .error (.noOptionError key sec)
    | some v => .ok v

/-- The configuration phase of `main`: `load_config` followed by the three
`config.get` calls, in source order, short-circuiting on the first
exception. -/
def configLookups (config_path : String) (st : ConfigState) :
    Except ConfigError (String × String × String) := do
  let cfg ← load_config config_path st
  let scip_exe ← configGet cfg "Paths" "scip_solver_exe"
  let highs_exe ← configGet cfg "Paths" "highs_solver_exe"
  let cuopt_url ← configGet cfg "cuOpt" "server_url"
  pure (scip_exe, highs_exe, cuopt_url)

/-- The four CLI subcommands with their positional arguments. -/
inductive Command where
  | solveCuopt (input_file : String)
  | solveScip (input_file output_file : String)
  | solveHighs (input_file output_file : String)
  | presolveAndSolve (input_file output_file : String)

/-- Environment of `main`: the configuration path and file state, and
output-file existence as observed by the `presolved_file.exists()` check
performed after the presolve step. -/
structure MainWorld where
  configPath : String
  configState : ConfigState
  outputExists : String → Bool

/-- Events of the dispatcher, at the granularity of the workflow calls it
makes (mirroring how the repository's own unit tests observe `main`, by
mocking the three workflow functions and asserting their call arguments). -/
inductive MainEvent where
  | msg (s : String)
  | callCuopt (mps_file_path url : String)
  | callScip (scip_exe input output solve_type : String)
  | callHighs (highs_exe input output : String)

/-- Whether an event is a solver step (a subprocess run or remote call). -/
def MainEvent.isSolverCall : MainEvent → Bool
  | .msg _ => false
  | _ => true

/-- Outcome of `main`: a normal return with its event trace, or an uncaught
exception (which the interpreter surfaces as a stack trace; no events
precede one here, the configuration phase printing nothing). -/
inductive MainOutcome where
  | normal (trace : List MainEvent)
  | uncaught (e : ConfigError)

/-- Trace of a `main` outcome. -/
def MainOutcome.trace : MainOutcome → List MainEvent
  | .normal t => t
  | .uncaught _ => []

namespace Solve

/-- Embedding of `main` (`Solve.py`) after argument parsing: run the
configuration phase, print `"Configuration Error: ..."` and return when one
of the three declared exception classes is raised (any other exception
propagates), then dispatch on the subcommand.  `presolve-and-solve` runs the
SCIP presolve, then checks the output artifact and either chains into the
cuOpt solve on that output path or reports that the solve step is skipped. -/
def main (w : MainWorld) (cmd : Command) : MainOutcome :=
  match configLookups w.configPath w.configState with
  | .error e =>
    if e.isCaughtByMain then
      .normal [.msg ("Configuration Error: " ++ e.message)]
    else
      .uncaught e
  | .ok (scip_exe, highs_exe, cuopt_url) =>
    match cmd with
    | .solveCuopt input => .normal [.callCuopt input cuopt_url]
    | .solveScip input output => .normal [.callScip scip_exe input output "solve"]
    | .solveHighs input output => .normal [.callHighs highs_exe input output]
    | .presolveAndSolve input output =>
      .normal
        ([.msg "--- Step 1: Presolving with SCIP ---",
          .callScip scip_exe input output "presolve"] ++
         (if w.outputExists output then
            [.msg "\n--- Step 2: Solving with cuOpt ---",
             .callCuopt output cuopt_url]
          else
            [.msg "\nPresolving failed. Skipping cuOpt solve step."]))

end Solve

/-! ## Helper lemmas -/

theorem string_data_append (a b : String) : (a ++ b).data = a.data ++ b.data := rfl

theorem isPrefixOf_append_self (l m : List Char) : l.isPrefixOf (l ++ m) = true := by
  rw [List.isPrefixOf_iff_prefix]
  exact List.prefix_append l m

theorem pyStartsWith_append (a b : String) : pyStartsWith (a ++ b) a = true := by
  unfold pyStartsWith
  rw [string_data_append]
  exact isPrefixOf_append_self a.data b.data

theorem splitSlash_no_slash (l : List Char) : ∀ p ∈ splitSlash l, '/' ∉ p := by
  induction l with
  | nil =>
    intro p hp
    simp only [splitSlash, List.mem_singleton] at hp
    subst hp
    simp
  | cons c cs ih =>
    intro p hp
    simp only [splitSlash, splitSlashCons] at hp
    by_cases hc : c = '/'
    · rw [if_pos hc] at hp
      rcases List.mem_cons.mp hp with rfl | h
      · simp
      · exact ih p h
    · rw [if_neg hc] at hp
      rcases hsp : splitSlash cs with _ | ⟨q, qs⟩
      · rw [hsp] at hp
        simp only [List.mem_singleton] at hp
        subst hp
        simp only [List.mem_singleton]
        exact fun h => hc h.symm
      · rw [hsp] at hp
        rcases List.mem_cons.mp hp with rfl | h
        · intro hmem
          rcases List.mem_cons.mp hmem with heq | hq
          · exact hc heq.symm
          · exact ih q (hsp ▸ List.mem_cons_self q qs) hq
        · exact ih p (hsp ▸ List.mem_cons_of_mem q h)

theorem pathlibName_no_slash (s : String) : '/' ∉ (pathlibName s).data := by
  unfold pathlibName
  rcases hl : (pathParts s).getLast? with _ | p
  · simp
  · have hp : p ∈ pathParts s := List.mem_of_getLast?_eq_some hl
    have hp2 : p ∈ splitSlash s.data := List.mem_of_mem_filter hp
    simpa using splitSlash_no_slash s.data p hp2

theorem cuopt_post_mem (w : ClientWorld) (p u : String) (t : Rat) (b : Int) :
    (ClientEvent.post u (pathlibName p) t b (t + 30)) ∈
      (solve_with_cuopt_server w p u t b).trace := by
  unfold solve_with_cuopt_server
  rcases w.outcome with m | ⟨s, body, text⟩
  · simp [cuoptExceptHandler, ReqExc.matchesRequestException, ClientResult.trace]
  · by_cases h : 400 ≤ s ∧ s < 600
    · simp [h, cuoptExceptHandler, ReqExc.matchesRequestException, ClientResult.trace]
    · rcases body with _ | v <;>
        simp [h, cuoptExceptHandler, ReqExc.matchesRequestException, ClientResult.trace]

/-! ## Claim C1 -/

/-- Claim C1 (code bug): the `solve_from_request` security check is the
string-prefix test `file_path.startswith("/app")`, not a directory
containment test, so a request for `"../appdata"` — whose normalised path
`"/appdata"` escapes the base directory — is *not* rejected with 400: when
that sibling path exists on the server, the request proceeds all the way to
the parser and solver on a file outside the base directory.  This refutes
the claim (and the code's own `Security Check` comment) that every resolved
path escaping the base directory is rejected with 400 before the parser or
solver runs. -/
theorem C1_prefix_guard_admits_escaping_path :
    escapesBase (normpath (posixJoin base_directory "../appdata")) = true ∧
    solve_from_request
        ⟨fun p => p == "/appdata", [("get_status", .returns (.vstr "optimal"))]⟩
        ⟨"../appdata", 1, 1⟩ =
      (.ok ⟨.vstr "optimal", .vnone, []⟩,
       [.parseMps "/appdata", .batchSolve 1 1]) :=
  ⟨rfl, rfl⟩

/-! ## Claim C2 -/

/-- Claim C2 (code bug): when the HTTP exchange succeeds (status 200) but
the body is not valid JSON, `response.json()` raises
`requests.exceptions.JSONDecodeError`, which derives from
`RequestException`; the first `except` clause of `solve_with_cuopt_server`
therefore intercepts it and prints the *transport*-error line.  The
decode-failure branch (which would print `"Response was not valid JSON:"`
followed by the raw body) is dead code: neither that line nor the raw body
text is ever printed.  This refutes the claim that the decode-failure
branch, distinct from the transport branch, handles undecodable bodies. -/
theorem C2_invalid_json_handled_by_transport_branch :
    solve_with_cuopt_server ⟨fun _ => true, .response 200 none "not json"⟩
        "model.mps" "http://localhost:5000/solve_mps" 60 1 =
      .normal
        [.msg "-> Sending \x27model.mps\x27 to cuOpt server at http://localhost:5000/solve_mps...",
         .post "http://localhost:5000/solve_mps" "model.mps" 60 1 (60 + 30),
         .msg "Status Code: 200", .msg "Response JSON:",
         .msg "An error occurred while communicating with the cuOpt server: Expecting value: line 1 column 1 (char 0)"] ∧
    "Response was not valid JSON:" ∉
      (solve_with_cuopt_server ⟨fun _ => true, .response 200 none "not json"⟩
        "model.mps" "http://localhost:5000/solve_mps" 60 1).printedLines ∧
    "not json" ∉
      (solve_with_cuopt_server ⟨fun _ => true, .response 200 none "not json"⟩
        "model.mps" "http://localhost:5000/solve_mps" 60 1).printedLines :=
  ⟨rfl, by decide, by decide⟩

/-! ## Claim C6 -/

/-- Claim C6 (confirmed): for every input path — including paths with
directory components — `solve_with_cuopt_server` posts a body whose
`file_name` is exactly `Path(path).name` (which never contains a directory
separator), whose `time_limit` and `batch_size` are the given arguments,
and whose HTTP request timeout is exactly `time_limit + 30`. -/
theorem C6_request_uses_basename_and_buffered_timeout (w : ClientWorld)
    (p u : String) (t : Rat) (b : Int) :
    (ClientEvent.post u (pathlibName p) t b (t + 30)) ∈
      (solve_with_cuopt_server w p u t b).trace ∧
    '/' ∉ (pathlibName p).data :=
  ⟨cuopt_post_mem w p u t b, pathlibName_no_slash p⟩

/-! ## Claim C9 -/

/-- Claim C9 (confirmed): `solve_from_request` performs no positivity
validation on `batch_size`: a request with `batch_size ≤ 0` for an existing
in-base file passes both guards, parses nothing (`range` of a non-positive
int is empty, so no `parseMps` event occurs), calls the batch solve on an
empty model list, and then fails with an uncaught `IndexError` on
`batch_solution[0]` instead of being rejected with a 4xx response before
solving. -/
theorem C9_zero_batch_reaches_index_error (w : ServerWorld) (t : Rat) (b : Int)
    (hb : b ≤ 0) (hex : w.fileExists "/app/model.mps" = true) :
    solve_from_request w ⟨"model.mps", t, b⟩ =
      (.pyError "IndexError: list index out of range", [.batchSolve 0 t]) := by
  have hpath : normpath (posixJoin base_directory "model.mps") = "/app/model.mps" := rfl
  have hguard : pyStartsWith "/app/model.mps" base_directory = true := rfl
  have hn : Int.toNat b = 0 := Int.toNat_of_nonpos hb
  simp [solve_from_request, hpath, hguard, hex, hn]

/-- Witness for C9: the concrete request `{file_name: "model.mps",
time_limit: 1, batch_size: 0}` against a world where every path exists. -/
theorem C9_witness :
    ((0 : Int) ≤ 0) ∧
    solve_from_request ⟨fun _ => true, []⟩ ⟨"model.mps", 1, 0⟩ =
      (.pyError "IndexError: list index out of range", [.batchSolve 0 1]) :=
  ⟨by decide, C9_zero_batch_reaches_index_error ⟨fun _ => true, []⟩ 1 0 (by decide) rfl⟩

/-! ## Claim C10 -/

/-- Claim C10 (confirmed): `solve_with_cuopt_server` never consults the
local filesystem (its input-existence check is commented out in the source —
the result is invariant under the world's `fileExists`), it posts the
request in every run, and it returns normally in every outcome — transport
error, non-2xx status, undecodable body, or success — so no exception from
the remote solve ever propagates to the dispatcher. -/
theorem C10_always_posts_and_returns_normally (fe : String → Bool)
    (oc : ReqOutcome) (p u : String) (t : Rat) (b : Int) :
    (∃ tr, solve_with_cuopt_server ⟨fe, oc⟩ p u t b = .normal tr) ∧
    (∀ fe2 : String → Bool,
      solve_with_cuopt_server ⟨fe2, oc⟩ p u t b =
        solve_with_cuopt_server ⟨fe, oc⟩ p u t b) ∧
    (ClientEvent.post u (pathlibName p) t b (t + 30)) ∈
      (solve_with_cuopt_server ⟨fe, oc⟩ p u t b).trace := by
  refine ⟨?_, fun fe2 => rfl, cuopt_post_mem ⟨fe, oc⟩ p u t b⟩
  unfold solve_with_cuopt_server
  rcases oc with m | ⟨s, body, text⟩
  · exact ⟨_, rfl⟩
  · by_cases h : 400 ≤ s ∧ s < 600
    · simp only [h, if_true, cuoptExceptHandler, ReqExc.matchesRequestException, if_pos]
      exact ⟨_, rfl⟩
    · rcases body with _ | v
      · simp only [h, if_false, cuoptExceptHandler, ReqExc.matchesRequestException]
        exact ⟨_, rfl⟩
      · simp only [h, if_false]
        exact ⟨_, rfl⟩

/-! ## Claim C3 -/

/-- Counterexample for C3: a syntactically *invalid* configuration file
makes `config.read` raise `configparser.ParsingError`, which is not among
the three exception classes `main` catches — the run ends with an uncaught
exception (a stack trace), not with a `"Configuration Error"` message. -/
theorem C3_counterexample_malformed_config :
    Solve.main ⟨"config.ini", .malformed, fun _ => false⟩ (.solveCuopt "my_model.mps") =
      .uncaught .parsingError ∧
    ConfigError.parsingError.isCaughtByMain = false :=
  ⟨rfl, rfl⟩

/-- Claim C3 (amended): for every subcommand, a configuration-phase
exception of one of the three caught classes — missing configuration file,
missing section, missing key — makes `main` return normally with the single
printed line `"Configuration Error: <exception text>"` (which starts with
`"Configuration Error"`) and no solver step (subprocess run or remote call)
in its trace.  (A syntactically invalid configuration file instead raises an
uncaught `configparser.ParsingError`; see the counterexample.) -/
theorem C3_caught_config_errors_abort_before_any_step (w : MainWorld)
    (cmd : Command) (e : ConfigError)
    (h : configLookups w.configPath w.configState = .error e)
    (hc : e.isCaughtByMain = true) :
    Solve.main w cmd = .normal [.msg ("Configuration Error: " ++ e.message)] ∧
    pyStartsWith ("Configuration Error: " ++ e.message) "Configuration Error" = true ∧
    (Solve.main w cmd).trace.all (fun ev => !ev.isSolverCall) = true := by
  have h1 : Solve.main w cmd = .normal [.msg ("Configuration Error: " ++ e.message)] := by
    unfold Solve.main
    rw [h]
    simp [hc]
  refine ⟨h1, ?_, ?_⟩
  · have : ("Configuration Error: " ++ e.message) =
        ("Configuration Error" ++ (": " ++ e.message)) := by
      rw [← String.append_assoc]
      rfl
    rw [this]
    exact pyStartsWith_append "Configuration Error" (": " ++ e.message)
  · rw [h1]
    simp [MainOutcome.trace, MainEvent.isSolverCall]

/-- Witness for C3: a missing configuration file with the `solve-cuopt`
subcommand. -/
theorem C3_witness :
    configLookups "config.ini" .missing =
      .error (.fileNotFoundError
        ("Configuration file not found at \x27config.ini\x27. " ++
         "Please create it based on the repository\x27s example.")) ∧
    Solve.main ⟨"config.ini", .missing, fun _ => false⟩ (.solveCuopt "my_model.mps") =
      .normal [.msg ("Configuration Error: " ++
        (ConfigError.fileNotFoundError
          ("Configuration file not found at \x27config.ini\x27. " ++
           "Please create it based on the repository\x27s example.")).message)] :=
  ⟨rfl,
   (C3_caught_config_errors_abort_before_any_step
     ⟨"config.ini", .missing, fun _ => false⟩ (.solveCuopt "my_model.mps")
     (.fileNotFoundError
       ("Configuration file not found at \x27config.ini\x27. " ++
        "Please create it based on the repository\x27s example."))
     rfl rfl).1⟩

/-! ## Claim C5 -/

/-- Claim C5 (confirmed): with a well-formed configuration, the
`presolve-and-solve` workflow first calls the SCIP runner with solve type
`"presolve"` on `(input, output)`; then it calls the remote cuOpt solve with
the presolve step's *output* path if and only if that output artifact exists
afterwards; otherwise it prints the presolve-failed/skipping message and
performs no remote call. -/
theorem C5_presolve_chain (w : MainWorld) (input output scip highs url : String)
    (hcfg : configLookups w.configPath w.configState = .ok (scip, highs, url)) :
    Solve.main w (.presolveAndSolve input output) = .normal
      ([.msg "--- Step 1: Presolving with SCIP ---",
        .callScip scip input output "presolve"] ++
       (if w.outputExists output then
          [.msg "\n--- Step 2: Solving with cuOpt ---", .callCuopt output url]
        else
          [.msg "\nPresolving failed. Skipping cuOpt solve step."])) ∧
    ((MainEvent.callCuopt output url) ∈
        (Solve.main w (.presolveAndSolve input output)).trace ↔
      w.outputExists output = true) := by
  have h1 : Solve.main w (.presolveAndSolve input output) = .normal
      ([.msg "--- Step 1: Presolving with SCIP ---",
        .callScip scip input output "presolve"] ++
       (if w.outputExists output then
          [.msg "\n--- Step 2: Solving with cuOpt ---", .callCuopt output url]
        else
          [.msg "\nPresolving failed. Skipping cuOpt solve step."])) := by
    unfold Solve.main
    rw [hcfg]
  refine ⟨h1, ?_⟩
  rw [h1]
  by_cases hex : w.outputExists output
  · simp [MainOutcome.trace, hex]
  · simp only [Bool.not_eq_true] at hex
    simp [MainOutcome.trace, hex]

/-! ## Claim C7 -/

/-- Claim C7 (confirmed): once the preconditions pass and the external
process has exited, both `execute_scip_command` and `execute_highs_command`
return normally — never raising — and their final printed line is exactly
the three-way classification: exit code 0 with the output file present is
success, exit code 0 without the output file is the ran-but-produced-no-
output report, and a nonzero exit code is the failure report. -/
theorem C7_postprocess_classification (w : RunnerWorld)
    (exe input output st : String)
    (hexe : w.fileExists exe = true) (hin : w.fileExists input = true)
    (hst : st = "presolve" ∨ st = "solve") :
    (∃ tr, execute_scip_command w exe input output st = .normal tr ∧
      tr.getLast? = some (.msg (runnerOutcomeMsg "SCIP" w.returncode
        (w.outputExistsAfter output) output))) ∧
    (∃ tr, execute_highs_command w exe input output = .normal tr ∧
      tr.getLast? = some (.msg (runnerOutcomeMsg "HiGHS" w.returncode
        (w.outputExistsAfter output) output))) := by
  constructor
  · have hmap : ∃ script, alookup st (scipCommandMap input output) = some script := by
      rcases hst with rfl | rfl
      · exact ⟨_, rfl⟩
      · exact ⟨_, rfl⟩
    rcases hmap with ⟨script, hmap⟩
    unfold execute_scip_command
    rw [hexe, hin, hmap]
    simp only [Bool.not_true, Bool.false_eq_true, if_false]
    by_cases h0 : w.returncode = 0
    · by_cases hout : w.outputExistsAfter output = true
      · rw [if_pos ⟨h0, hout⟩]
        refine ⟨_, rfl, ?_⟩
        rw [List.getLast?_concat, runnerOutcomeMsg, if_pos ⟨h0, hout⟩]
      · rw [if_neg (fun hand => hout hand.2), if_pos h0]
        refine ⟨_, rfl, ?_⟩
        rw [List.getLast?_concat, runnerOutcomeMsg, if_neg (fun hand => hout hand.2),
          if_pos h0]
        rfl
    · rw [if_neg (fun hand => h0 hand.1), if_neg h0]
      refine ⟨_, rfl, ?_⟩
      rw [List.getLast?_concat, runnerOutcomeMsg, if_neg (fun hand => h0 hand.1),
        if_neg h0]
      rfl
  · unfold execute_highs_command
    rw [hexe, hin]
    simp only [Bool.not_true, Bool.false_eq_true, if_false]
    by_cases h0 : w.returncode = 0
    · by_cases hout : w.outputExistsAfter output = true
      · rw [if_pos ⟨h0, hout⟩]
        refine ⟨_, rfl, ?_⟩
        rw [List.getLast?_concat, runnerOutcomeMsg, if_pos ⟨h0, hout⟩]
      · rw [if_neg (fun hand => hout hand.2), if_pos h0]
        refine ⟨_, rfl, ?_⟩
        rw [List.getLast?_concat, runnerOutcomeMsg, if_neg (fun hand => hout hand.2),
          if_pos h0]
        rfl
    · rw [if_neg (fun hand => h0 hand.1), if_neg h0]
      refine ⟨_, rfl, ?_⟩
      rw [List.getLast?_concat, runnerOutcomeMsg, if_neg (fun hand => h0 hand.1),
        if_neg h0]
      rfl

/-- Witness for C7: a world whose process exits with code 0 and creates the
output file, for the `presolve` solve type. -/
theorem C7_witness :
    ((fun _ : String => true) "scip.exe" = true) ∧
    (∃ tr, execute_scip_command ⟨fun _ => true, "scip log", 0, fun _ => true⟩
        "scip.exe" "m.mps" "o.sol" "presolve" = .normal tr ∧
      tr.getLast? = some (.msg (runnerOutcomeMsg "SCIP" 0 true "o.sol"))) ∧
    (∃ tr, execute_highs_command ⟨fun _ => true, "scip log", 0, fun _ => true⟩
        "scip.exe" "m.mps" "o.sol" = .normal tr ∧
      tr.getLast? = some (.msg (runnerOutcomeMsg "HiGHS" 0 true "o.sol"))) := by
  have h := C7_postprocess_classification ⟨fun _ => true, "scip log", 0, fun _ => true⟩
    "scip.exe" "m.mps" "o.sol" "presolve" rfl rfl (Or.inl rfl)
  exact ⟨rfl, h.1, h.2⟩

/-! ## Claim C8 -/

/-- Claim C8 (confirmed): for both runners, a nonexistent executable path
or a nonexistent input model path makes the call return after printing the
descriptive missing-path error — and for the SCIP runner a solve type other
than `"presolve"` and `"solve"` raises the descriptive `ValueError` — in
all cases with no spawn event in the trace, i.e. no child process started. -/
theorem C8_precondition_guards (w : RunnerWorld) (exe input output st : String) :
    (w.fileExists exe = false →
      execute_scip_command w exe input output st =
        .normal [.msg ("Error: SCIP executable not found at \x27" ++ exe ++ "\x27")] ∧
      (execute_scip_command w exe input output st).spawned = false ∧
      execute_highs_command w exe input output =
        .normal [.msg ("Error: HiGHS executable not found at \x27" ++ exe ++ "\x27")] ∧
      (execute_highs_command w exe input output).spawned = false) ∧
    (w.fileExists exe = true → w.fileExists input = false →
      execute_scip_command w exe input output st =
        .normal [.msg ("Error: Input file not found at \x27" ++ input ++ "\x27")] ∧
      (execute_scip_command w exe input output st).spawned = false ∧
      execute_highs_command w exe input output =
        .normal [.msg ("Error: Input file not found at \x27" ++ input ++ "\x27")] ∧
      (execute_highs_command w exe input output).spawned = false) ∧
    (w.fileExists exe = true → w.fileExists input = true →
      st ≠ "presolve" → st ≠ "solve" →
      execute_scip_command w exe input output st =
        .raised "solve_type must be either \x27presolve\x27 or \x27solve\x27"
          [.msg ("-> Starting SCIP process for \x27" ++ input ++ "\x27...")] ∧
      (execute_scip_command w exe input output st).spawned = false) := by
  refine ⟨fun hexe => ?_, fun hexe hin => ?_, fun hexe hin h1 h2 => ?_⟩
  · have hs : execute_scip_command w exe input output st =
        .normal [.msg ("Error: SCIP executable not found at \x27" ++ exe ++ "\x27")] := by
      unfold execute_scip_command
      rw [hexe]
      rfl
    have hh : execute_highs_command w exe input output =
        .normal [.msg ("Error: HiGHS executable not found at \x27" ++ exe ++ "\x27")] := by
      unfold execute_highs_command
      rw [hexe]
      rfl
    refine ⟨hs, ?_, hh, ?_⟩
    · rw [hs]; rfl
    · rw [hh]; rfl
  · have hs : execute_scip_command w exe input output st =
        .normal [.msg ("Error: Input file not found at \x27" ++ input ++ "\x27")] := by
      unfold execute_scip_command
      rw [hexe, hin]
      rfl
    have hh : execute_highs_command w exe input output =
        .normal [.msg ("Error: Input file not found at \x27" ++ input ++ "\x27")] := by
      unfold execute_highs_command
      rw [hexe, hin]
      rfl
    refine ⟨hs, ?_, hh, ?_⟩
    · rw [hs]; rfl
    · rw [hh]; rfl
  · have hmap : alookup st (scipCommandMap input output) = none := by
      unfold scipCommandMap alookup alookup alookup
      rw [if_neg (fun h => h1 h.symm), if_neg (fun h => h2 h.symm)]
    have hs : execute_scip_command w exe input output st =
        .raised "solve_type must be either \x27presolve\x27 or \x27solve\x27"
          [.msg ("-> Starting SCIP process for \x27" ++ input ++ "\x27...")] := by
      unfold execute_scip_command
      rw [hexe, hin, hmap]
      rfl
    refine ⟨hs, ?_⟩
    rw [hs]; rfl

/-- Witness for C8: concrete instantiations of each of the three guard
branches, for both runners. -/
theorem C8_witness :
    (execute_scip_command ⟨fun _ => false, "", 0, fun _ => false⟩
        "scip.exe" "in.mps" "out.mps" "solve" =
      .normal [.msg "Error: SCIP executable not found at \x27scip.exe\x27"]) ∧
    (execute_highs_command ⟨fun p => p == "h.exe", "", 0, fun _ => false⟩
        "h.exe" "in.mps" "out.mps" =
      .normal [.msg "Error: Input file not found at \x27in.mps\x27"]) ∧
    (execute_scip_command ⟨fun _ => true, "", 0, fun _ => false⟩
        "scip.exe" "in.mps" "out.mps" "optimize" =
      .raised "solve_type must be either \x27presolve\x27 or \x27solve\x27"
        [.msg "-> Starting SCIP process for \x27in.mps\x27..."]) :=
  ⟨((C8_precondition_guards ⟨fun _ => false, "", 0, fun _ => false⟩
      "scip.exe" "in.mps" "out.mps" "solve").1 rfl).1,
   ((C8_precondition_guards ⟨fun p => p == "h.exe", "", 0, fun _ => false⟩
      "h.exe" "in.mps" "out.mps" "solve").2.1 rfl rfl).2.2.1,
   (((C8_precondition_guards ⟨fun _ => true, "", 0, fun _ => false⟩
      "scip.exe" "in.mps" "out.mps" "optimize").2.2 rfl rfl
      (by decide) (by decide))).1⟩

/-! ## Claim C4: dictionary lemmas and the reshaping refinement -/

theorem alookup_eq_none {β : Type} (k : String) (l : List (String × β))
    (h : ∀ p ∈ l, p.1 ≠ k) : alookup k l = none := by
  induction l with
  | nil => rfl
  | cons p ps ih =>
    unfold alookup
    rw [if_neg (h p (List.mem_cons_self p ps))]
    exact ih (fun q hq => h q (List.mem_cons_of_mem p hq))

theorem alookup_none_forall {β : Type} (k : String) (l : List (String × β))
    (h : alookup k l = none) : ∀ p ∈ l, p.1 ≠ k := by
  induction l with
  | nil => intro p hp; cases hp
  | cons p ps ih =>
    unfold alookup at h
    by_cases hp : p.1 = k
    · rw [if_pos hp] at h; cases h
    · rw [if_neg hp] at h
      intro q hq
      rcases List.mem_cons.mp hq with rfl | hq2
      · exact hp
      · exact ih h q hq2

theorem alookup_cons {β : Type} (k : String) (p : String × β)
    (ps : List (String × β)) :
    alookup k (p :: ps) = if p.1 = k then some p.2 else alookup k ps := rfl

theorem alookup_append_right {β : Type} (k : String) (l₁ l₂ : List (String × β))
    (h : alookup k l₁ = none) : alookup k (l₁ ++ l₂) = alookup k l₂ := by
  induction l₁ with
  | nil => rfl
  | cons p ps ih =>
    rw [alookup_cons] at h
    by_cases hp : p.1 = k
    · rw [if_pos hp] at h; cases h
    · rw [if_neg hp] at h
      rw [List.cons_append, alookup_cons, if_neg hp]
      exact ih h

theorem alookup_filter_ne {β : Type} (k k' : String) (hkk : k ≠ k')
    (l : List (String × β)) :
    alookup k (l.filter (fun p => decide (p.1 ≠ k'))) = alookup k l := by
  induction l with
  | nil => rfl
  | cons p ps ih =>
    by_cases hp : p.1 = k'
    · rw [List.filter_cons_of_neg (by simpa using hp), ih, alookup_cons,
        if_neg (fun h => hkk (h.symm.trans hp))]
    · rw [List.filter_cons_of_pos (by simpa using hp), alookup_cons, alookup_cons]
      by_cases hk : p.1 = k
      · rw [if_pos hk, if_pos hk]
      · rw [if_neg hk, if_neg hk, ih]

theorem resultDictStep_eq (d : List (String × PyVal)) (p : String × AttrBehavior) :
    resultDictStep d p =
      match resultEntry p with
      | some kv => pyDictSet d kv.1 kv.2
      | none => d := by
  unfold resultDictStep resultEntry
  by_cases h : pyStartsWith p.1 "get_" = true
  · rw [if_pos h, if_pos h]
    cases p.2 <;> rfl
  · rw [if_neg h, if_neg h]

theorem pyDictSet_fresh (d : List (String × PyVal)) (k : String) (v : PyVal)
    (h : alookup k d = none) : pyDictSet d k v = d ++ [(k, v)] := by
  unfold pyDictSet
  rw [h]

theorem foldl_resultDictStep (r : ResultObj) :
    ∀ acc : List (String × PyVal),
      (∀ k ∈ resultKeys r, alookup k acc = none) →
      (resultKeys r).Nodup →
      r.foldl resultDictStep acc = acc ++ resultEntries r := by
  induction r with
  | nil =>
    intro acc _ _
    simp [resultEntries]
  | cons p ps ih =>
    intro acc hfresh hnodup
    rw [List.foldl_cons, resultDictStep_eq]
    rcases hre : resultEntry p with _ | kv
    · have hkeys : resultKeys (p :: ps) = resultKeys ps := by
        simp [resultKeys, resultEntries, List.filterMap_cons, hre]
      have h1 : resultEntries (p :: ps) = resultEntries ps := by
        simp [resultEntries, List.filterMap_cons, hre]
      rw [h1]
      exact ih acc (fun k hk => hfresh k (hkeys ▸ hk)) (hkeys ▸ hnodup)
    · have hkeys : resultKeys (p :: ps) = kv.1 :: resultKeys ps := by
        simp [resultKeys, resultEntries, List.filterMap_cons, hre]
      have hk1 : kv.1 ∈ resultKeys (p :: ps) := by
        rw [hkeys]; exact List.mem_cons_self kv.1 (resultKeys ps)
      have hnd := hkeys ▸ hnodup
      have hndtail : (resultKeys ps).Nodup := (List.nodup_cons.mp hnd).2
      have hhead : kv.1 ∉ resultKeys ps := (List.nodup_cons.mp hnd).1
      show List.foldl resultDictStep (pyDictSet acc kv.1 kv.2) ps =
        acc ++ resultEntries (p :: ps)
      rw [pyDictSet_fresh acc kv.1 kv.2 (hfresh kv.1 hk1)]
      have h1 : resultEntries (p :: ps) = kv :: resultEntries ps := by
        simp [resultEntries, List.filterMap_cons, hre]
      rw [h1]
      rw [ih (acc ++ [(kv.1, kv.2)]) ?_ hndtail]
      · simp
      · intro k hk
        rw [alookup_append_right k acc [(kv.1, kv.2)]
          (hfresh k (by rw [hkeys]; exact List.mem_cons_of_mem kv.1 hk))]
        rw [alookup_cons, if_neg (fun (h : kv.1 = k) => hhead (h.symm ▸ hk))]
        rfl

/-- Counterexample for C4: a result object exposing a numpy-array field
(`get_dual_vector` returning an ndarray, a non-JSON-primitive value) yields
that field in `details` as a *list* (via `.tolist()`), not as its string
representation — refuting the claim that every non-JSON-primitive value is
coerced to a string. -/
theorem C4_counterexample_ndarray_becomes_list :
    isJsonSafe (.vndarray [1, 2]) = false ∧
    alookup "dual_vector"
      (reshape [("get_status", .returns (.vstr "optimal")),
                ("get_dual_vector", .returns (.vndarray [1, 2]))]).details =
      some (.vlist [.vfloat 1, .vfloat 2]) ∧
    PyVal.isStr (.vlist [.vfloat 1, .vfloat 2]) = false :=
  ⟨rfl, rfl, rfl⟩

/-- Claim C4 (amended): provided the result object's getters expose each key
once (as `dir()` guarantees), `solve_from_request`'s reshaping promotes
`status` and `objective_value` to the top level (defaulting to `"unknown"`
and `None` when absent), and every other field whose getter succeeds is
preserved in `details` in order — JSON-primitive values verbatim, numpy
arrays converted to lists via `.tolist()`, every other non-primitive value
coerced to its string representation, and only getters raising
`AttributeError` skipped. -/
theorem C4_reshape_refinement (r : ResultObj) (h : (resultKeys r).Nodup) :
    reshape r = ⟨reshapeSpecStatus r, reshapeSpecObjective r, reshapeSpecDetails r⟩ := by
  have hbuild : buildResultDict r = resultEntries r := by
    have hb := foldl_resultDictStep r [] (fun k _ => rfl) h
    simpa [buildResultDict] using hb
  have hso : ("objective_value" : String) ≠ "status" := by decide
  unfold reshape
  rw [hbuild]
  unfold reshapeSpecStatus reshapeSpecObjective reshapeSpecDetails
  rcases h1 : alookup "status" (resultEntries r) with _ | v
  · rcases h2 : alookup "objective_value" (resultEntries r) with _ | v2
    · simp only [pyDictPop, h1, h2, Option.getD_none]
      have hforall1 := alookup_none_forall "status" (resultEntries r) h1
      have hforall2 := alookup_none_forall "objective_value" (resultEntries r) h2
      have : (resultEntries r).filter
          (fun p => decide (p.1 ≠ "status") && decide (p.1 ≠ "objective_value")) =
          resultEntries r := by
        rw [List.filter_eq_self]
        intro p hp
        simp [hforall1 p hp, hforall2 p hp]
      rw [this]
    · simp only [pyDictPop, h1, h2, Option.getD_none, Option.getD_some]
      have hforall1 := alookup_none_forall "status" (resultEntries r) h1
      have : (resultEntries r).filter (fun p => decide (p.1 ≠ "objective_value")) =
          (resultEntries r).filter
            (fun p => decide (p.1 ≠ "status") && decide (p.1 ≠ "objective_value")) := by
        apply List.filter_congr
        intro p hp
        simp [hforall1 p hp]
      rw [this]
  · have h2eq := alookup_filter_ne "objective_value" "status" hso (resultEntries r)
    rcases h2 : alookup "objective_value" (resultEntries r) with _ | v2
    · simp only [pyDictPop, h1, Option.getD_some, h2eq, h2, Option.getD_none]
      have hforall2 := alookup_none_forall "objective_value" (resultEntries r) h2
      have : (resultEntries r).filter (fun p => decide (p.1 ≠ "status")) =
          (resultEntries r).filter
            (fun p => decide (p.1 ≠ "status") && decide (p.1 ≠ "objective_value")) := by
        apply List.filter_congr
        intro p hp
        simp [hforall2 p hp]
      rw [this]
    · simp only [pyDictPop, h1, Option.getD_some, h2eq, h2]
      rw [List.filter_filter]
      have : (resultEntries r).filter
          (fun a => decide (a.1 ≠ "objective_value") && decide (a.1 ≠ "status")) =
          (resultEntries r).filter
            (fun p => decide (p.1 ≠ "status") && decide (p.1 ≠ "objective_value")) := by
        apply List.filter_congr
        intro p _
        exact Bool.and_comm _ _
      rw [this]

/-- A result object of the shape the spec's own example uses: a `status`
getter, an `objective_value` getter, a numpy-array getter, a non-primitive
object getter, a getter raising `AttributeError`, and a non-getter
attribute. -/
def resultObjExample : ResultObj :=
  [("get_status", .returns (.vstr "optimal")),
   ("get_objective_value", .returns (.vfloat (85 / 2))),
   ("get_dual_vector", .returns (.vndarray [1, 2])),
   ("get_lp_stats", .returns (.vobj "LPStats object")),
   ("get_milp_gap", .raisesAttributeError),
   ("solve", .nonCallable)]

/-- Witness for C4: the example result object has pairwise distinct keys
and reshapes to its declarative description. -/
theorem C4_witness :
    (resultKeys resultObjExample).Nodup ∧
    reshape resultObjExample =
      ⟨reshapeSpecStatus resultObjExample, reshapeSpecObjective resultObjExample,
       reshapeSpecDetails resultObjExample⟩ :=
  ⟨by decide, C4_reshape_refinement resultObjExample (by decide)⟩

/-- A concrete well-formed configuration world for the `presolve-and-solve`
workflow, mirroring the repository's own test fixture. -/
def presolveDemoWorld : MainWorld :=
  ⟨"config.ini",
   .parsed [("Paths", [("scip_solver_exe", "dummy/path/to/scip.exe"),
                       ("highs_solver_exe", "dummy/path/to/highs.exe")]),
            ("cuOpt", [("server_url", "http://dummy-url:8000/solve_mps")])],
   fun _ => true⟩

/-- Witness for C5: the demo configuration with an output artifact that
exists after the presolve step. -/
theorem C5_witness :
    configLookups presolveDemoWorld.configPath presolveDemoWorld.configState =
      .ok ("dummy/path/to/scip.exe", "dummy/path/to/highs.exe",
           "http://dummy-url:8000/solve_mps") ∧
    (Solve.main presolveDemoWorld (.presolveAndSolve "my_model.mps" "presolved.mps") =
      .normal
        ([.msg "--- Step 1: Presolving with SCIP ---",
          .callScip "dummy/path/to/scip.exe" "my_model.mps" "presolved.mps" "presolve"] ++
         (if presolveDemoWorld.outputExists "presolved.mps" then
            [.msg "\n--- Step 2: Solving with cuOpt ---",
             .callCuopt "presolved.mps" "http://dummy-url:8000/solve_mps"]
          else
            [.msg "\nPresolving failed. Skipping cuOpt solve step."])) ∧
     ((MainEvent.callCuopt "presolved.mps" "http://dummy-url:8000/solve_mps") ∈
        (Solve.main presolveDemoWorld
          (.presolveAndSolve "my_model.mps" "presolved.mps")).trace ↔
      presolveDemoWorld.outputExists "presolved.mps" = true)) :=
  ⟨rfl,
   C5_presolve_chain presolveDemoWorld "my_model.mps" "presolved.mps"
     "dummy/path/to/scip.exe" "dummy/path/to/highs.exe"
     "http://dummy-url:8000/solve_mps" rfl⟩
